import Mathlib

/-!
Shallow embedding of the webhook-driven payment confirmation pipeline of
`app.py` (Flask app: `stripe_webhook` handler plus `send_email` notifier).

Modelling conventions:
- Python dict `.get(key, default)` on the Stripe event objects is embedded as
  `Option` fields with `Option.getD`; a missing attribute (`hasattr` failing)
  is likewise an `Option` that is `none`.
- Metadata values are strings when present; `metadata.get('amount', 0.0)`
  yields the Python float `0.0` only when the key is absent, so the extracted
  value is embedded as `Option String` (`none` = the float default `0.0`,
  whose f-string rendering is `"0.0"`).
- `session.get('amount_total', 0) / 100` produces a Python float that is
  later interpolated into the email body.  The embedding keeps the integer
  minor-unit amount and performs division and float `repr` in one rendering
  step (`centsRepr`), which for amounts in scope equals Python's shortest
  round-trip representation: the exact decimal with trailing zeros stripped
  and at least one fractional digit.
- Network effects (`stripe.PaymentIntent.retrieve`, the SMTP transport) are
  embedded as explicit parameters: a lookup function returning
  `Except String PaymentIntent`, and a `transportOk : Bool` flag.  The
  handler returns a trace recording the response, every retrieve attempted
  and every email handed to the transport.
-/

/-- Card details nested under `payment_method_details.card`. -/
structure CardDetails where
  last4 : Option String
  brand : Option String
deriving DecidableEq

/-- Cash App details nested under `payment_method_details.cashapp`. -/
structure CashappDetails where
  cashtag : Option String
deriving DecidableEq

/-- The `payment_method_details` object of a Stripe charge.  `type` is read
with `.get('type', 'Unknown')`; `card` / `cashapp` are guarded by `hasattr`. -/
structure PaymentMethodDetails where
  type : Option String
  card : Option CardDetails
  cashapp : Option CashappDetails
deriving DecidableEq

/-- One charge record; `payment_method_details` is guarded by `hasattr`. -/
structure Charge where
  payment_method_details : Option PaymentMethodDetails
deriving DecidableEq

/-- A retrieved PaymentIntent.  `charges` models the legacy nested
`payment_intent.charges.data` shape (absent when `hasattr` fails).
`payment_method` models the direct attached-payment-method reference that the
Stripe API also carries (spec section 4.3); the handler code never reads it. -/
structure PaymentIntent where
  charges : Option (List Charge)
  payment_method : Option PaymentMethodDetails
deriving DecidableEq

/-- `session['customer_details']`, carrying the optional customer email. -/
structure CustomerDetails where
  email : Option String
deriving DecidableEq

/-- The metadata dict attached at session creation; every value is a string
when present (`.get` defaults apply when absent). -/
structure Metadata where
  game : Option String
  username : Option String
  amount : Option String
  convenience_fee : Option String
deriving DecidableEq

/-- The empty metadata dict used as the `.get('metadata', {})` default. -/
def emptyMetadata : Metadata :=
  { game := none, username := none, amount := none, convenience_fee := none }

/-- The `event['data']['object']` checkout session. -/
structure SessionObj where
  amount_total : Option Nat
  metadata : Option Metadata
  payment_intent : Option String
  customer_details : Option CustomerDetails
  created : Option Int
deriving DecidableEq

/-- A verified Stripe event: the `type` tag and the session object. -/
structure Event where
  type : String
  obj : SessionObj
deriving DecidableEq

/-- Python `str.lower()` (per-character, as used on ASCII card brands). -/
def lowerStr (s : String) : String :=
  String.mk (s.data.map Char.toLower)

/-- Python `str.upper()` (per-character, as used on ASCII card brands). -/
def upperStr (s : String) : String :=
  String.mk (s.data.map Char.toUpper)

/-- Helper for `pyTitle`: the Boolean records whether the previous character
was alphabetic. -/
def pyTitleAux : Bool → List Char → List Char
  | _, [] => []
  | prevAlpha, c :: cs =>
    if c.isAlpha then
      (if prevAlpha then c.toLower else c.toUpper) :: pyTitleAux true cs
    else
      c :: pyTitleAux false cs

/-- Python `str.title()`: uppercase each letter that follows a non-letter,
lowercase the rest. -/
def pyTitle (s : String) : String :=
  String.mk (pyTitleAux false s.data)

/-- Python `str.replace(a, b)` for single-character pattern and replacement,
as used in `payment_method_type.replace('_', ' ')`. -/
def pyReplaceChar (a b : Char) (s : String) : String :=
  String.mk (s.data.map (fun c => if c = a then b else c))

/-- Rendering of the Python float `cents / 100` by an f-string, fused with
the division itself.  For the minor-unit amounts in scope, Python's
shortest round-trip float `repr` is the exact decimal value with trailing
zeros stripped and at least one fractional digit kept, which is what this
computes. -/
def centsRepr (cents : Nat) : String :=
  let ip := cents / 100
  let fr := cents % 100
  if fr = 0 then toString ip ++ ".0"
  else if fr % 10 = 0 then toString ip ++ "." ++ toString (fr / 10)
  else if fr < 10 then toString ip ++ ".0" ++ toString fr
  else toString ip ++ "." ++ toString fr

/-- f-string rendering of a metadata value extracted by
`metadata.get(key, 0.0)`: the string itself when the key was present,
otherwise the rendering `"0.0"` of the float default. -/
def pyMetaRepr : Option String → String
  | some s => s
  | none => "0.0"

/-- The state accumulated by the payment-method retrieval block of
`stripe_webhook` (`payment_method_type`, `card_brand`, `card_last4`,
`cashapp_cashtag`). -/
structure PMState where
  pmType : String
  card_brand : Option String
  card_last4 : Option String
  cashapp_cashtag : Option String
deriving DecidableEq

/-- The initial values of the retrieval block: type `"Unknown"` and no
card / cashtag details. -/
def defaultPM : PMState :=
  { pmType := "Unknown", card_brand := none, card_last4 := none,
    cashapp_cashtag := none }

/-- Extraction of the payment-method state from one
`payment_method_details` object, as done on `charges.data[0]`:
`type = .get('type', 'Unknown')`; card details only when the type is
`card` and the `card` attribute exists (brand lower-cased); cashtag only
when the type is `cashapp` and the `cashapp` attribute exists. -/
def pmStateOfDetails (pmd : PaymentMethodDetails) : PMState :=
  let t := pmd.type.getD "Unknown"
  if t = "card" then
    match pmd.card with
    | some cd =>
      { pmType := t, card_brand := some (lowerStr (cd.brand.getD "")),
        card_last4 := some (cd.last4.getD ""), cashapp_cashtag := none }
    | none => { defaultPM with pmType := t }
  else if t = "cashapp" then
    match pmd.cashapp with
    | some ca =>
      { pmType := t, card_brand := none, card_last4 := none,
        cashapp_cashtag := some (ca.cashtag.getD "") }
    | none => { defaultPM with pmType := t }
  else
    { defaultPM with pmType := t }

/-- The payment-method extraction performed on a retrieved PaymentIntent
(`app.py` lines 200-216): it inspects only the legacy
`charges.data[0].payment_method_details` shape, keeping the defaults when
the `charges` attribute, the data list, or the details are absent. -/
def resolve_payment_method (intent : PaymentIntent) : PMState :=
  match intent.charges with
  | none => defaultPM
  | some chs =>
    match chs with
    | [] => defaultPM
    | latest_charge :: _ =>
      match latest_charge.payment_method_details with
      | none => defaultPM
      | some pmd => pmStateOfDetails pmd

/-- The resolver behaviour described by the spec (section 4.3), written
from the spec's words for comparison with `resolve_payment_method`: try
the direct attached-payment-method reference first, then fall back to the
legacy charge-record shape, else give up with Unknown. -/
def resolve_spec (intent : PaymentIntent) : PMState :=
  match intent.payment_method with
  | some pmd => pmStateOfDetails pmd
  | none =>
    match intent.charges with
    | none => defaultPM
    | some [] => defaultPM
    | some (latest_charge :: _) =>
      match latest_charge.payment_method_details with
      | none => defaultPM
      | some pmd => pmStateOfDetails pmd

/-- The Cash App logo img tag of `send_email`. -/
def cashappLogoHtml : String :=
  "<img src=\"https://cdn.jsdelivr.net/gh/danielmiessler/logos@master/images/cashapp.svg\" alt=\"Cash App\" style=\"height: 20px; vertical-align: middle; margin-right: 5px;\">"

/-- The Apple Pay logo img tag of `send_email`. -/
def applePayLogoHtml : String :=
  "<img src=\"https://cdn.jsdelivr.net/gh/danielmiessler/logos@master/images/applepay.svg\" alt=\"Apple Pay\" style=\"height: 20px; vertical-align: middle; margin-right: 5px;\">"

/-- The Google Pay logo img tag of `send_email`. -/
def googlePayLogoHtml : String :=
  "<img src=\"https://cdn.jsdelivr.net/gh/danielmiessler/logos@master/images/googlepay.svg\" alt=\"Google Pay\" style=\"height: 20px; vertical-align: middle; margin-right: 5px;\">"

/-- The card-brand logo html of `send_email`: a fixed img tag for the four
known brands, otherwise a bold span with the brand upper-cased. -/
def cardLogoHtml (card_brand : String) : String :=
  if card_brand = "visa" then
    "<img src=\"https://cdn.jsdelivr.net/gh/danielmiessler/logos@master/images/visa.svg\" alt=\"Visa\" style=\"height: 20px; vertical-align: middle; margin-right: 5px;\">"
  else if card_brand = "mastercard" then
    "<img src=\"https://cdn.jsdelivr.net/gh/danielmiessler/logos@master/images/mastercard.svg\" alt=\"Mastercard\" style=\"height: 20px; vertical-align: middle; margin-right: 5px;\">"
  else if card_brand = "amex" then
    "<img src=\"https://cdn.jsdelivr.net/gh/danielmiessler/logos@master/images/amex.svg\" alt=\"American Express\" style=\"height: 20px; vertical-align: middle; margin-right: 5px;\">"
  else if card_brand = "discover" then
    "<img src=\"https://cdn.jsdelivr.net/gh/danielmiessler/logos@master/images/discover.svg\" alt=\"Discover\" style=\"height: 20px; vertical-align: middle; margin-right: 5px;\">"
  else
    "<span style=\"font-weight: bold; margin-right: 5px;\">" ++ upperStr card_brand ++ "</span>"

/-- The `payment_method_html` computation of `send_email`: card branch
(requires truthy brand and last4), cashapp branch (truthy cashtag, `$`
prepended), Apple Pay, Google Pay, and the generic
`type.replace('_', ' ').title()` fallback. -/
def paymentMethodHtml (payment_method_type : String)
    (card_brand card_last4 cashapp_cashtag : Option String) : String :=
  if payment_method_type = "card" ∧ card_brand.getD "" ≠ "" ∧ card_last4.getD "" ≠ "" then
    cardLogoHtml (card_brand.getD "") ++ " •••• " ++ card_last4.getD ""
  else if payment_method_type = "cashapp" ∧ cashapp_cashtag.getD "" ≠ "" then
    cashappLogoHtml ++ " $" ++ cashapp_cashtag.getD ""
  else if payment_method_type = "apple_pay" then
    applePayLogoHtml ++ " Apple Pay"
  else if payment_method_type = "google_pay" then
    googlePayLogoHtml ++ " Google Pay"
  else
    pyTitle (pyReplaceChar '_' ' ' payment_method_type)

/-- The spec's rendering of a cash-transfer handle (section 4.3), written
from the spec's words for comparison with the cashapp branch of
`paymentMethodHtml`: strip a single leading dollar sigil if present, then
re-add the display formatting. -/
def renderCashtagSpec (cashtag : String) : String :=
  cashappLogoHtml ++ " $" ++
    (match cashtag.data with
     | '$' :: rest => String.mk rest
     | _ => cashtag)

/-- The notification message assembled by `send_email`.  The HTML body is
represented by its interpolated values: `depositCell`, `feeCell` and
`totalCell` are the `$`-prefixed renderings placed in the Deposit Amount,
Convenience Fee and Total Amount table cells, and `methodHtml` is the
Payment Method cell.  The static template text around them carries no
data.  The date/time cells are display-only conversions of `createdEpoch`
(kept absolute here, matching the spec's remark that the stored value
stays absolute). -/
structure EmailMsg where
  fromAddr : String
  toAddr : String
  subject : String
  displayPaymentId : String
  paymentId : String
  customer : String
  game : String
  username : String
  depositCell : String
  feeCell : String
  totalCell : String
  methodHtml : String
  createdEpoch : Int
deriving DecidableEq

/-- The `send_email` notifier: renders the message and hands it to the
SMTP transport; a transport failure (modelled by `transportOk = false`) is
caught and logged, so the function returns the rendered message together
with the delivery outcome and never propagates the failure.
`amount_received_cents` is the session's `amount_total`; its division by
100 and f-string rendering are fused in `centsRepr` (see above). -/
def send_email (customer_email : String) (amount_received_cents : Nat)
    (game username : String) (amount convenience_fee : Option String)
    (created : Int) (payment_id : String) (payment_method_type : String)
    (card_brand card_last4 cashapp_cashtag : Option String)
    (transportOk : Bool) : EmailMsg × Bool :=
  let from_email := "fkgv.load2@gmail.com"
  let to_email := "fkgv.load1@gmail.com"
  let subject := "New Payment Notification - " ++ payment_id
  let display_payment_id :=
    if payment_id.data.length > 15 then String.mk (payment_id.data.take 15) ++ "..."
    else payment_id
  let payment_method_html :=
    paymentMethodHtml payment_method_type card_brand card_last4 cashapp_cashtag
  let msg : EmailMsg :=
    { fromAddr := from_email, toAddr := to_email, subject := subject,
      displayPaymentId := display_payment_id, paymentId := payment_id,
      customer := customer_email, game := game, username := username,
      depositCell := "$" ++ pyMetaRepr amount,
      feeCell := "$" ++ pyMetaRepr convenience_fee,
      totalCell := "$" ++ centsRepr amount_received_cents,
      methodHtml := payment_method_html,
      createdEpoch := created }
  (msg, transportOk)

/-- The observable outcome of one webhook invocation: HTTP status and
`success` flag of the JSON response, the PaymentIntent ids the handler
tried to retrieve, the messages handed to the mail transport, and each
delivery's outcome. -/
structure WebhookResult where
  status : Nat
  success : Bool
  lookups : List String
  emails : List EmailMsg
  deliveries : List Bool
deriving DecidableEq

/-- The guard of the retrieval block:
`if payment_intent_id and payment_intent_id != 'Unknown Payment ID'`. -/
def lookupAttempted (payment_intent_id : String) : Bool :=
  payment_intent_id != "" && payment_intent_id != "Unknown Payment ID"

/-- The try/except block around `stripe.PaymentIntent.retrieve`
(`app.py` lines 194-225): when the guard holds, the retrieve is attempted;
a network failure is caught and the defaults kept.  Returns the
payment-method state together with the retrieves attempted. -/
def resolveStep (payment_intent_id : String)
    (lookup : String → Except String PaymentIntent) : PMState × List String :=
  if lookupAttempted payment_intent_id then
    match lookup payment_intent_id with
    | Except.ok intent => (resolve_payment_method intent, [payment_intent_id])
    | Except.error _ => (defaultPM, [payment_intent_id])
  else
    (defaultPM, [])

/-- The `checkout.session.completed` branch of `stripe_webhook`
(`app.py` lines 172-252), in source order: extract amount and metadata,
run the payment-method retrieval block, then check the customer email
(rejecting with 400 when it is absent or empty), and finally render and
send the notification, returning 200 regardless of delivery outcome. -/
def processCompleted (session : SessionObj)
    (lookup : String → Except String PaymentIntent)
    (transportOk : Bool) : WebhookResult :=
  let amount_received_cents := session.amount_total.getD 0
  let metadata := session.metadata.getD emptyMetadata
  let game := metadata.game.getD "Unknown Game"
  let username := metadata.username.getD "Unknown User"
  let convenience_fee := metadata.convenience_fee
  let amount := metadata.amount
  let payment_intent_id := session.payment_intent.getD "Unknown Payment ID"
  let pmTrace := resolveStep payment_intent_id lookup
  let customer_email := (session.customer_details.getD { email := none }).email
  if customer_email.getD "" = "" then
    { status := 400, success := false, lookups := pmTrace.2, emails := [],
      deliveries := [] }
  else
    let payment_time_unix := session.created.getD 0
    let sent := send_email (customer_email.getD "") amount_received_cents game
      username amount convenience_fee payment_time_unix payment_intent_id
      pmTrace.1.pmType pmTrace.1.card_brand pmTrace.1.card_last4
      pmTrace.1.cashapp_cashtag transportOk
    { status := 200, success := true, lookups := pmTrace.2,
      emails := [sent.1], deliveries := [sent.2] }

/-- The two exceptions `stripe.Webhook.construct_event` can raise:
`ValueError` on an unparsable payload, `SignatureVerificationError` on a
bad or missing signature. -/
inductive VerifyError where
  | invalidPayload
  | sigMismatch
deriving DecidableEq

/-- The webhook handler `stripe_webhook`, given the outcome of
`stripe.Webhook.construct_event`: both exceptions are answered with a 400
rejection before any processing; a verified event of a kind other than
`checkout.session.completed` is acknowledged with 200 as a no-op. -/
def stripe_webhook (verification : Except VerifyError Event)
    (lookup : String → Except String PaymentIntent)
    (transportOk : Bool) : WebhookResult :=
  match verification with
  | Except.error VerifyError.invalidPayload =>
    { status := 400, success := false, lookups := [], emails := [],
      deliveries := [] }
  | Except.error VerifyError.sigMismatch =>
    { status := 400, success := false, lookups := [], emails := [],
      deliveries := [] }
  | Except.ok event =>
    if event.type = "checkout.session.completed" then
      processCompleted event.obj lookup transportOk
    else
      { status := 200, success := true, lookups := [], emails := [],
        deliveries := [] }

/-- Modelled from the spec: `stripe.Webhook.construct_event` (the Stripe
library call of `app.py` line 169, not part of this repository's sources).
Per spec section 4.1 it fails with `SignatureMismatch` when the signature
header is absent or the keyed hash (`mac sharedSecret rawBody`) does not
match the header, and with `InvalidPayload` when the body does not parse
as an event envelope; verification uses the raw body bytes.  The keyed
hash `mac` and the envelope parser `parse` are explicit parameters. -/
def construct_event (mac : String → String → String)
    (parse : String → Option Event) (payload : String)
    (sig_header : Option String) (secret : String) :
    Except VerifyError Event :=
  match sig_header with
  | none => Except.error VerifyError.sigMismatch
  | some sig =>
    if sig = mac secret payload then
      match parse payload with
      | some event => Except.ok event
      | none => Except.error VerifyError.invalidPayload
    else
      Except.error VerifyError.sigMismatch

/-- The full webhook endpoint: signature verification followed by the
handler. -/
def webhook_endpoint (mac : String → String → String)
    (parse : String → Option Event) (payload : String)
    (sig_header : Option String) (secret : String)
    (lookup : String → Except String PaymentIntent)
    (transportOk : Bool) : WebhookResult :=
  stripe_webhook (construct_event mac parse payload sig_header secret)
    lookup transportOk

/-! Concrete sample data used by witnesses and counterexamples. -/

/-- A fully populated completed-checkout event (the spec's running
example: amount_total 5250 minor units, metadata amount `"50"`, fee
`"2.5"`). -/
def okEvent : Event :=
  { type := "checkout.session.completed",
    obj :=
      { amount_total := some 5250,
        metadata := some
          { game := some "Fire Kirin", username := some "j_doe",
            amount := some "50", convenience_fee := some "2.5" },
        payment_intent := some "pi_3ABC",
        customer_details := some { email := some "cust@example.com" },
        created := some 1700000000 } }

/-- A completed-checkout event whose session carries no customer email. -/
def noEmailEvent : Event :=
  { type := "checkout.session.completed",
    obj :=
      { amount_total := some 5250,
        metadata := some
          { game := some "Fire Kirin", username := some "j_doe",
            amount := some "50", convenience_fee := some "2.5" },
        payment_intent := some "pi_123",
        customer_details := some { email := none },
        created := some 1700000000 } }

/-- A verified event of a non-completed kind. -/
def otherKindEvent : Event :=
  { type := "payment_intent.created",
    obj :=
      { amount_total := some 5250, metadata := none, payment_intent := none,
        customer_details := none, created := none } }

/-- A lookup environment in which every retrieve fails with a network
error. -/
def errLookup : String → Except String PaymentIntent :=
  fun _ => Except.error "network error"

/-! Helper lemmas about the handler. -/

lemma resolveStep_of_error (payment_intent_id : String)
    (lookup : String → Except String PaymentIntent) (err : String)
    (h : lookup payment_intent_id = Except.error err) :
    resolveStep payment_intent_id lookup =
      (defaultPM,
        if lookupAttempted payment_intent_id then [payment_intent_id] else []) := by
  unfold resolveStep
  by_cases hA : lookupAttempted payment_intent_id = true <;> simp [hA, h]

lemma resolveStep_snd_attempted (payment_intent_id : String)
    (lookup : String → Except String PaymentIntent)
    (hA : lookupAttempted payment_intent_id = true) :
    (resolveStep payment_intent_id lookup).2 = [payment_intent_id] := by
  unfold resolveStep
  cases h : lookup payment_intent_id <;> simp [hA, h]

lemma pmHtmlUnknown : paymentMethodHtml "Unknown" none none none = "Unknown" := by
  decide

/-- C1: for every inbound webhook request whose body is a validly signed
envelope of kind `checkout.session.completed` carrying a customer email,
the handler invokes the notifier exactly once for that request and
returns a 200 success response. -/
theorem C1_notify_once_and_200 (mac : String → String → String)
    (parse : String → Option Event) (payload : String)
    (sig_header : Option String) (secret : String) (event : Event)
    (lookup : String → Except String PaymentIntent) (transportOk : Bool)
    (hv : construct_event mac parse payload sig_header secret = Except.ok event)
    (hk : event.type = "checkout.session.completed")
    (he : (event.obj.customer_details.getD { email := none }).email.getD "" ≠ "") :
    (webhook_endpoint mac parse payload sig_header secret lookup transportOk).emails.length = 1 ∧
    (webhook_endpoint mac parse payload sig_header secret lookup transportOk).status = 200 ∧
    (webhook_endpoint mac parse payload sig_header secret lookup transportOk).success = true := by
  unfold webhook_endpoint
  rw [hv]
  simp [stripe_webhook, hk, processCompleted, he]

theorem C1_witness :
    (webhook_endpoint (fun s b => s ++ b) (fun _ => some okEvent) "body"
        (some "secbody") "sec" errLookup true).emails.length = 1 ∧
    (webhook_endpoint (fun s b => s ++ b) (fun _ => some okEvent) "body"
        (some "secbody") "sec" errLookup true).status = 200 ∧
    (webhook_endpoint (fun s b => s ++ b) (fun _ => some okEvent) "body"
        (some "secbody") "sec" errLookup true).success = true :=
  C1_notify_once_and_200 (fun s b => s ++ b) (fun _ => some okEvent) "body"
    (some "secbody") "sec" okEvent errLookup true rfl rfl (by decide)

/-- C2: for every envelope failing signature verification (tampered body,
wrong secret, or absent/malformed signature header) or failing to parse,
the handler returns a 400 rejection and the notifier is never invoked. -/
theorem C2_reject_on_verification_failure (mac : String → String → String)
    (parse : String → Option Event) (payload : String)
    (sig_header : Option String) (secret : String) (e : VerifyError)
    (lookup : String → Except String PaymentIntent) (transportOk : Bool)
    (hv : construct_event mac parse payload sig_header secret = Except.error e) :
    (webhook_endpoint mac parse payload sig_header secret lookup transportOk).status = 400 ∧
    (webhook_endpoint mac parse payload sig_header secret lookup transportOk).success = false ∧
    (webhook_endpoint mac parse payload sig_header secret lookup transportOk).emails = [] := by
  unfold webhook_endpoint
  rw [hv]
  cases e <;> simp [stripe_webhook]

theorem C2_witness :
    (webhook_endpoint (fun s b => s ++ b) (fun _ => some okEvent) "tampered"
        (some "secbody") "sec" errLookup true).status = 400 ∧
    (webhook_endpoint (fun s b => s ++ b) (fun _ => some okEvent) "tampered"
        (some "secbody") "sec" errLookup true).success = false ∧
    (webhook_endpoint (fun s b => s ++ b) (fun _ => some okEvent) "tampered"
        (some "secbody") "sec" errLookup true).emails = [] :=
  C2_reject_on_verification_failure (fun s b => s ++ b) (fun _ => some okEvent)
    "tampered" (some "secbody") "sec" VerifyError.sigMismatch errLookup true
    rfl

/-- C5: for every verified completed event on which no customer email can
be located, the handler returns a 400 rejection and the notifier is never
invoked. -/
theorem C5_reject_missing_email (event : Event)
    (lookup : String → Except String PaymentIntent) (transportOk : Bool)
    (hk : event.type = "checkout.session.completed")
    (he : (event.obj.customer_details.getD { email := none }).email.getD "" = "") :
    (stripe_webhook (Except.ok event) lookup transportOk).status = 400 ∧
    (stripe_webhook (Except.ok event) lookup transportOk).success = false ∧
    (stripe_webhook (Except.ok event) lookup transportOk).emails = [] := by
  simp [stripe_webhook, hk, processCompleted, he]

theorem C5_witness :
    (stripe_webhook (Except.ok noEmailEvent) errLookup true).status = 400 ∧
    (stripe_webhook (Except.ok noEmailEvent) errLookup true).success = false ∧
    (stripe_webhook (Except.ok noEmailEvent) errLookup true).emails = [] :=
  C5_reject_missing_email noEmailEvent errLookup true rfl (by decide)

/-- C6: for every validly signed envelope whose event kind is not
`checkout.session.completed`, the handler returns a 200 success response
(a no-op) and the notifier is never invoked. -/
theorem C6_noop_on_other_kind (event : Event)
    (lookup : String → Except String PaymentIntent) (transportOk : Bool)
    (hk : event.type ≠ "checkout.session.completed") :
    (stripe_webhook (Except.ok event) lookup transportOk).status = 200 ∧
    (stripe_webhook (Except.ok event) lookup transportOk).success = true ∧
    (stripe_webhook (Except.ok event) lookup transportOk).emails = [] := by
  simp [stripe_webhook, hk]

theorem C6_witness :
    (stripe_webhook (Except.ok otherKindEvent) errLookup true).status = 200 ∧
    (stripe_webhook (Except.ok otherKindEvent) errLookup true).success = true ∧
    (stripe_webhook (Except.ok otherKindEvent) errLookup true).emails = [] :=
  C6_noop_on_other_kind otherKindEvent errLookup true (by decide)

/-- C3 (counterexample): on the spec's own example — metadata amount
`"50"`, convenience_fee `"2.5"`, amount_total 5250 — the rendered cells
are `$50`, `$2.5` and `$52.5`: the metadata strings are interpolated
verbatim and the total is rendered with Python's default float
formatting, not with exactly 2 decimal places as the claim states. -/
theorem C3_counterexample :
    ((stripe_webhook (Except.ok okEvent) errLookup true).emails.map
        (fun m => (m.depositCell, m.feeCell, m.totalCell))) =
      [("$50", "$2.5", "$52.5")] ∧
    ((stripe_webhook (Except.ok okEvent) errLookup true).emails.map
        (fun m => (m.depositCell, m.feeCell, m.totalCell))) ≠
      [("$50.00", "$2.50", "$52.50")] := by
  decide

/-- C3 (amended): for every verified completed event that is notified,
the Total Amount cell is the amount_total divided by 100 rendered with
Python's default float formatting (trailing zeros stripped, at least one
fractional digit), while the Deposit Amount and Convenience Fee cells
interpolate the metadata strings verbatim (`"0.0"` when absent); no cell
is forced to 2 decimal places. -/
theorem C3_amount_rendering (event : Event)
    (lookup : String → Except String PaymentIntent) (transportOk : Bool)
    (hk : event.type = "checkout.session.completed")
    (he : (event.obj.customer_details.getD { email := none }).email.getD "" ≠ "") :
    ((stripe_webhook (Except.ok event) lookup transportOk).emails.map
        (fun m => (m.depositCell, m.feeCell, m.totalCell))) =
      [("$" ++ pyMetaRepr (event.obj.metadata.getD emptyMetadata).amount,
        "$" ++ pyMetaRepr (event.obj.metadata.getD emptyMetadata).convenience_fee,
        "$" ++ centsRepr (event.obj.amount_total.getD 0))] := by
  simp [stripe_webhook, hk, processCompleted, he, send_email]

theorem C3_witness :
    ((stripe_webhook (Except.ok okEvent) errLookup true).emails.map
        (fun m => (m.depositCell, m.feeCell, m.totalCell))) =
      [("$" ++ pyMetaRepr (okEvent.obj.metadata.getD emptyMetadata).amount,
        "$" ++ pyMetaRepr (okEvent.obj.metadata.getD emptyMetadata).convenience_fee,
        "$" ++ centsRepr (okEvent.obj.amount_total.getD 0))] :=
  C3_amount_rendering okEvent errLookup true rfl (by decide)

/-- A completed event whose metadata amount is the unparsable string
`"abc"`. -/
def badAmountEvent : Event :=
  { type := "checkout.session.completed",
    obj :=
      { amount_total := some 5250,
        metadata := some
          { game := some "Fire Kirin", username := some "j_doe",
            amount := some "abc", convenience_fee := some "2.5" },
        payment_intent := some "pi_abc",
        customer_details := some { email := some "cust@example.com" },
        created := some 1700000000 } }

/-- C4 (counterexample): with metadata amount `"abc"`, the handler does
not substitute zero — the unparsed string is forwarded verbatim and the
Deposit Amount cell reads `$abc`, not a rendering of zero (the code never
parses metadata numbers; the `.get` default applies only when the key is
absent). -/
theorem C4_counterexample :
    ((stripe_webhook (Except.ok badAmountEvent) errLookup true).emails.map
        (fun m => m.depositCell)) = ["$abc"] ∧
    ((stripe_webhook (Except.ok badAmountEvent) errLookup true).emails.map
        (fun m => m.depositCell)) ≠ ["$0"] ∧
    ((stripe_webhook (Except.ok badAmountEvent) errLookup true).emails.map
        (fun m => m.depositCell)) ≠ ["$0.0"] ∧
    ((stripe_webhook (Except.ok badAmountEvent) errLookup true).emails.map
        (fun m => m.depositCell)) ≠ ["$0.00"] := by
  decide

/-- C4 (amended): numeric metadata values are never parsed — a present
string (parsable or not) is forwarded verbatim into the Deposit Amount
cell, the zero default applies only when the key is absent, and the
notification is still sent exactly once with a 200 response. -/
theorem C4_metadata_passthrough (event : Event)
    (lookup : String → Except String PaymentIntent) (transportOk : Bool)
    (s : String)
    (hk : event.type = "checkout.session.completed")
    (he : (event.obj.customer_details.getD { email := none }).email.getD "" ≠ "")
    (hs : (event.obj.metadata.getD emptyMetadata).amount = some s) :
    ((stripe_webhook (Except.ok event) lookup transportOk).emails.map
        (fun m => m.depositCell)) = ["$" ++ s] ∧
    (stripe_webhook (Except.ok event) lookup transportOk).emails.length = 1 ∧
    (stripe_webhook (Except.ok event) lookup transportOk).status = 200 := by
  simp [stripe_webhook, hk, processCompleted, he, send_email, hs, pyMetaRepr]

theorem C4_witness :
    ((stripe_webhook (Except.ok badAmountEvent) errLookup false).emails.map
        (fun m => m.depositCell)) = ["$" ++ "abc"] ∧
    (stripe_webhook (Except.ok badAmountEvent) errLookup false).emails.length = 1 ∧
    (stripe_webhook (Except.ok badAmountEvent) errLookup false).status = 200 :=
  C4_metadata_passthrough badAmountEvent errLookup false "abc" rfl (by decide)
    (by decide)

/-- C7: for every verified completed event with a customer email, a
failing payment-method lookup degrades the descriptor to Unknown and a
failing mail transport is caught; neither failure reaches the webhook
caller, and the handler still returns a 200 success response with exactly
one rendered notification. -/
theorem C7_degrade_and_catch (event : Event)
    (lookup : String → Except String PaymentIntent) (err : String)
    (hk : event.type = "checkout.session.completed")
    (he : (event.obj.customer_details.getD { email := none }).email.getD "" ≠ "")
    (herr : lookup (event.obj.payment_intent.getD "Unknown Payment ID") =
      Except.error err) :
    (stripe_webhook (Except.ok event) lookup false).status = 200 ∧
    (stripe_webhook (Except.ok event) lookup false).success = true ∧
    ((stripe_webhook (Except.ok event) lookup false).emails.map
        (fun m => m.methodHtml)) = ["Unknown"] ∧
    (stripe_webhook (Except.ok event) lookup false).deliveries = [false] := by
  have hr := resolveStep_of_error
    (event.obj.payment_intent.getD "Unknown Payment ID") lookup err herr
  simp [stripe_webhook, hk, processCompleted, he, hr, send_email, defaultPM,
    pmHtmlUnknown]

theorem C7_witness :
    (stripe_webhook (Except.ok okEvent) errLookup false).status = 200 ∧
    (stripe_webhook (Except.ok okEvent) errLookup false).success = true ∧
    ((stripe_webhook (Except.ok okEvent) errLookup false).emails.map
        (fun m => m.methodHtml)) = ["Unknown"] ∧
    (stripe_webhook (Except.ok okEvent) errLookup false).deliveries = [false] :=
  C7_degrade_and_catch okEvent errLookup "network error" rfl (by decide) rfl

/-- A retrieved PaymentIntent exposing only the direct
attached-payment-method reference (a Visa card), with no legacy charges
list. -/
def directOnlyIntent : PaymentIntent :=
  { charges := none,
    payment_method := some
      { type := some "card",
        card := some { last4 := some "4242", brand := some "Visa" },
        cashapp := none } }

/-- C8 (counterexample): on a PaymentIntent carrying a direct attached
payment method but no legacy charge record, the code's extraction yields
Unknown while the spec's try-direct-then-fallback resolver yields the
card — the code never tries the direct shape first. -/
theorem C8_counterexample :
    resolve_payment_method directOnlyIntent ≠ resolve_spec directOnlyIntent ∧
    (resolve_spec directOnlyIntent).pmType = "card" ∧
    (resolve_payment_method directOnlyIntent).pmType = "Unknown" := by
  decide

/-- C8 (amended): the payment-method extraction inspects only the legacy
charge-record shape — when the charges attribute is absent or the charge
list is empty it gives up with Unknown, and its result never depends on
the direct attached-payment-method reference. -/
theorem C8_charge_shape_only :
    (∀ pm, resolve_payment_method { charges := none, payment_method := pm } =
      defaultPM) ∧
    (∀ pm, resolve_payment_method { charges := some [], payment_method := pm } =
      defaultPM) ∧
    (∀ chs pm pm2,
      resolve_payment_method { charges := chs, payment_method := pm } =
        resolve_payment_method { charges := chs, payment_method := pm2 }) :=
  ⟨fun _ => rfl, fun _ => rfl, fun _ _ _ => rfl⟩

set_option maxRecDepth 8192 in
/-- C9 (counterexample): the cashapp branch of the renderer prepends a
dollar sigil without stripping one already present, so a handle stored as
`$jdoe123` renders as `$$jdoe123`, not as the spec's strip-then-re-add
rendering `$jdoe123`. -/
theorem C9_counterexample :
    paymentMethodHtml "cashapp" none none (some "$jdoe123") =
      cashappLogoHtml ++ " $$jdoe123" ∧
    paymentMethodHtml "cashapp" none none (some "$jdoe123") ≠
      renderCashtagSpec "$jdoe123" := by
  decide

/-- C9 (amended): rendering a cash-transfer handle unconditionally
prepends the dollar sigil to the stored handle with no stripping, so a
handle stored without a sigil displays with exactly one; the stored
handle is never mutated and two render calls agree. -/
theorem C9_cashtag_prepend (cashtag : String) (h : cashtag ≠ "") :
    paymentMethodHtml "cashapp" none none (some cashtag) =
      cashappLogoHtml ++ " $" ++ cashtag ∧
    paymentMethodHtml "cashapp" none none (some cashtag) =
      paymentMethodHtml "cashapp" none none (some cashtag) := by
  refine ⟨?_, rfl⟩
  have h1 : ¬("cashapp" = "card" ∧ (none : Option String).getD "" ≠ "" ∧
      (none : Option String).getD "" ≠ "") := by decide
  have h2 : "cashapp" = "cashapp" ∧ (some cashtag).getD "" ≠ "" := ⟨rfl, h⟩
  rw [paymentMethodHtml, if_neg h1, if_pos h2]
  rfl

theorem C9_witness :
    paymentMethodHtml "cashapp" none none (some "jdoe123") =
      cashappLogoHtml ++ " $" ++ "jdoe123" ∧
    paymentMethodHtml "cashapp" none none (some "jdoe123") =
      paymentMethodHtml "cashapp" none none (some "jdoe123") :=
  C9_cashtag_prepend "jdoe123" (by decide)

/-- C10 (counterexample): on a verified completed event that lacks a
customer email but carries a payment intent id, the handler performs the
payment-method retrieve before rejecting with 400 — contradicting the
claim that no lookup is ever performed for such an event. -/
theorem C10_counterexample :
    (stripe_webhook (Except.ok noEmailEvent) errLookup true).lookups =
      ["pi_123"] ∧
    (stripe_webhook (Except.ok noEmailEvent) errLookup true).status = 400 ∧
    (stripe_webhook (Except.ok noEmailEvent) errLookup true).emails = [] := by
  decide

/-- C10 (amended): the payment-method retrieval block runs before the
customer-email check — a verified completed event lacking a customer
email but carrying a usable payment intent id still triggers exactly one
payment-method lookup, and is then rejected with 400 without
notification. -/
theorem C10_lookup_before_email_check (event : Event)
    (lookup : String → Except String PaymentIntent) (transportOk : Bool)
    (payment_intent_id : String)
    (hk : event.type = "checkout.session.completed")
    (hpid : event.obj.payment_intent = some payment_intent_id)
    (hA : lookupAttempted payment_intent_id = true)
    (he : (event.obj.customer_details.getD { email := none }).email.getD "" = "") :
    (stripe_webhook (Except.ok event) lookup transportOk).lookups =
      [payment_intent_id] ∧
    (stripe_webhook (Except.ok event) lookup transportOk).status = 400 ∧
    (stripe_webhook (Except.ok event) lookup transportOk).emails = [] := by
  have hr := resolveStep_snd_attempted payment_intent_id lookup hA
  simp [stripe_webhook, hk, processCompleted, he, hpid, hr]

theorem C10_witness :
    (stripe_webhook (Except.ok noEmailEvent) errLookup false).lookups =
      ["pi_123"] ∧
    (stripe_webhook (Except.ok noEmailEvent) errLookup false).status = 400 ∧
    (stripe_webhook (Except.ok noEmailEvent) errLookup false).emails = [] :=
  C10_lookup_before_email_check noEmailEvent errLookup false "pi_123" rfl rfl
    (by decide) (by decide)


